import Mathlib

/-!
Shallow embedding of `src/ldap_searcher.py` (class `LDAPSearcherApp`),
covering the batch lookup engine `perform_ldap_search` (lines 187-218) and
the parameter validation `validate_search_parameters` (lines 220-243).

Python string primitives (`str.strip`, `str.split(",")`, `str.splitlines`)
are modelled as executable functions on `List Char`.  The directory
service (the `ldap3` library) is modelled as an oracle mapping a search
request `(base, filter)` to either a raised exception (`Except.error`,
e.g. a socket timeout or a lost connection) or the resulting entry list
`conn.entries` (`Except.ok`; a search that merely returns an error result
code leaves `conn.entries` empty and is therefore `.ok []`).  An entry is
a finite map from attribute name to stringified single value, and
`str(result[attr])` for an attribute absent on the entry raises ldap3's
`LDAPKeyError`, modelled as `Except.error (.keyError attr)`.
-/

namespace LdapSearcher

/-- The whitespace characters removed by Python's `str.strip()`
(restricted to the ASCII whitespace that can occur in a Tk text box). -/
def isPySpace (c : Char) : Bool :=
  c = ' ' || c = '\t' || c = '\n' || c = '\r' || c = '\x0b' || c = '\x0c'

/-- Python `str.strip()` on a character list: drop leading and trailing
whitespace. -/
def pyStripChars (cs : List Char) : List Char :=
  ((cs.dropWhile isPySpace).reverse.dropWhile isPySpace).reverse

/-- Python `str.strip()`. -/
def pyStrip (s : String) : String :=
  String.mk (pyStripChars s.data)

/-- Python `str.split(sep)` for a one-character separator, on a character
list.  `"".split(",") = [""]`, and separators at the ends produce empty
pieces, exactly as in Python. -/
def pySplitChars (sep : Char) : List Char → List (List Char)
  | [] => [[]]
  | c :: cs =>
    if c = sep then
      [] :: pySplitChars sep cs
    else
      match pySplitChars sep cs with
      | [] => [[c]]
      | h :: t => (c :: h) :: t

/-- Python `str.split(sep)` for a one-character separator. -/
def pySplit (sep : Char) (s : String) : List String :=
  (pySplitChars sep s.data).map String.mk

/-- Python `str.splitlines()` on a character list, for `\n`-separated text
(the line separator produced by the Tk text box): `"" ↦ []`, a trailing
newline does not create an extra empty line. -/
def pySplitlinesChars : List Char → List (List Char)
  | [] => []
  | c :: cs =>
    if c = '\n' then
      [] :: pySplitlinesChars cs
    else
      match pySplitlinesChars cs with
      | [] => [[c]]
      | h :: t => (c :: h) :: t

/-- Python `str.splitlines()` for `\n`-separated text. -/
def pySplitlines (s : String) : List String :=
  (pySplitlinesChars s.data).map String.mk

/-- Placeholder text of the search-field entry (line 44). -/
def placeholderField : String := "LDAP field to search"

/-- Placeholder text of the search-base entry (line 47). -/
def placeholderBase : String := "LDAP search base"

/-- Placeholder text of the attributes entry (line 51). -/
def placeholderAttrs : String := "LDAP attributes to search (separated by commas)"

/-- The validated search parameters: the dictionary returned by
`validate_search_parameters` (line 243). -/
structure SearchParams where
  field : String
  base : String
  attributes : List String
deriving Repr, DecidableEq

/-- Lines 242-243: `attributes = f"{field}," + attributes` followed by
`[attr.strip() for attr in attributes.split(",")]`. -/
def effectiveAttributes (field attributesInput : String) : List String :=
  (pySplit ',' (field ++ "," ++ attributesInput)).map pyStrip

/-- Function `validate_search_parameters` (lines 220-243): each of the three inputs
is rejected when it is empty (Python falsiness of a string) or exactly its
placeholder text; otherwise the parameter dictionary is returned with the
search field prepended to the attribute list. -/
def validate_search_parameters (field base attributes : String) : Option SearchParams :=
  if field = "" ∨ field = placeholderField then none
  else if base = "" ∨ base = placeholderBase then none
  else if attributes = "" ∨ attributes = placeholderAttrs then none
  else some ⟨field, base, effectiveAttributes field attributes⟩

/-- Line 206: `search_filter = f"({search_params['field']}={entry})"` —
plain interpolation of the raw field and value. -/
def buildFilter (field value : String) : String :=
  "(" ++ field ++ "=" ++ value ++ ")"

/-- Exceptions that can escape the body of the `try` block of
`perform_ldap_search` (lines 196-216). -/
inductive LdapErr where
  | connectionError : LdapErr
  | searchError : LdapErr
  | timeout : LdapErr
  | keyError : String → LdapErr
deriving Repr, DecidableEq

/-- A directory entry: attribute name to stringified (single) value. -/
abbrev Entry := List (String × String)

instance {ε α : Type} [DecidableEq ε] [DecidableEq α] : DecidableEq (Except ε α) :=
  fun a b =>
    match a, b with
    | .error e, .error f =>
      if h : e = f then isTrue (by rw [h])
      else isFalse (fun hc => h (by injection hc))
    | .ok x, .ok y =>
      if h : x = y then isTrue (by rw [h])
      else isFalse (fun hc => h (by injection hc))
    | .error _, .ok _ => isFalse (fun hc => Except.noConfusion hc)
    | .ok _, .error _ => isFalse (fun hc => Except.noConfusion hc)

/-- Access `result[attr]` when the attribute is present on the entry; `none` when
it is absent. -/
def getAttr (e : Entry) (a : String) : Option String :=
  (e.find? (fun p => p.1 = a)).map (fun p => p.2)

/-- Line 213: the generator `str(result[attr]) for attr in attributes`,
evaluated left to right; ldap3 raises `LDAPKeyError` at the first
attribute absent on the entry. -/
def projectEntry (attrs : List String) (e : Entry) : Except LdapErr (List String) :=
  match attrs with
  | [] => .ok []
  | a :: rest =>
    match getAttr e a with
    | none => .error (.keyError a)
    | some v =>
      match projectEntry rest e with
      | .error err => .error err
      | .ok vs => .ok (v :: vs)

/-- Lines 210-214: the inner `for result in conn.entries` loop.  Returns
the rows inserted into the results box (in service order) and the first
projection exception, if any; rows after a raising entry are not
inserted. -/
def insertRows (attrs : List String) : List Entry → List (List String) × Option LdapErr
  | [] => ([], none)
  | e :: es =>
    match projectEntry attrs e with
    | .error err => ([], some err)
    | .ok row =>
      let r := insertRows attrs es
      (row :: r.1, r.2)

/-- The observable outcome of one identifier loop (lines 205-214): the
filters submitted to `conn.search` in order, the data rows inserted, and
the first exception raised inside the loop, if any. -/
structure LoopResult where
  filters : List String
  rows : List (List String)
  err : Option LdapErr
deriving Repr, DecidableEq

/-- Lines 205-214: the `for entry in ...splitlines()` loop.  Each line is
submitted as one search with the raw line as the filter value; an
exception raised by a search or by a row projection stops the loop (the
exception propagates to the handler at line 217). -/
def searchLoop (oracle : String → String → Except LdapErr (List Entry))
    (base field : String) (attrs : List String) : List String → LoopResult
  | [] => ⟨[], [], none⟩
  | id :: rest =>
    match oracle base (buildFilter field id) with
    | .error e => ⟨[buildFilter field id], [], some e⟩
    | .ok entries =>
      match (insertRows attrs entries).2 with
      | some e => ⟨[buildFilter field id], (insertRows attrs entries).1, some e⟩
      | none =>
        ⟨buildFilter field id :: (searchLoop oracle base field attrs rest).filters,
         (insertRows attrs entries).1 ++ (searchLoop oracle base field attrs rest).rows,
         (searchLoop oracle base field attrs rest).err⟩

/-- Line 213: `";".join(...)`. -/
def joinSemicolon (cells : List String) : String :=
  String.intercalate ";" cells

/-- Line 205: `self.left_textbox.get("1.0", tk.END).strip().splitlines()`. -/
def identifierLines (text : String) : List String :=
  pySplitlines (pyStrip text)

/-- The observable outcome of one call to `perform_ldap_search`:
the lines of the results text box after the call, the filters submitted,
the number of `Connection(...)` attempts, the number of `conn.unbind()`
calls, whether the error dialog of line 218 was shown, and the state of
the CSV-export button. -/
structure RunOutcome where
  textbox : List String
  filters : List String
  opens : Nat
  unbinds : Nat
  errorDialog : Bool
  exportEnabled : Bool
deriving Repr, DecidableEq

/-- Function `perform_ldap_search` (lines 187-218).  Parameters: the three entry
texts, the outcome of `Connection(..., auto_bind=True)` (line 200), the
directory oracle, the left text box content, and the previous results-box
lines and export-button state.  Validation failure returns before the
results box is cleared (line 195 runs only after line 190-192); the
header is inserted only after the connection binds; `conn.unbind()`
(line 215) runs only when the loop finishes without an exception. -/
def perform_ldap_search (field base attrsInput : String)
    (connect : Except LdapErr Unit)
    (oracle : String → String → Except LdapErr (List Entry))
    (leftText : String) (prevTextbox : List String) (prevExport : Bool) : RunOutcome :=
  match validate_search_parameters field base attrsInput with
  | none => ⟨prevTextbox, [], 0, 0, false, prevExport⟩
  | some params =>
    match connect with
    | .error _ => ⟨[], [], 1, 0, true, prevExport⟩
    | .ok _ =>
      let r := searchLoop oracle params.base params.field params.attributes
        (identifierLines leftText)
      let lines := joinSemicolon params.attributes :: r.rows.map joinSemicolon
      match r.err with
      | some _ => ⟨lines, r.filters, 1, 0, true, prevExport⟩
      | none => ⟨lines, r.filters, 1, 1, false, true⟩

/-- The rows a single identifier contributes when its search does not
raise (used to state the success-path shape of the loop). -/
def rowsOfSearch (oracle : String → String → Except LdapErr (List Entry))
    (base field : String) (attrs : List String) (id : String) : List (List String) :=
  match oracle base (buildFilter field id) with
  | .error _ => []
  | .ok entries => (insertRows attrs entries).1

/-- One identifier's search and row insertion completes without raising. -/
def searchOk (oracle : String → String → Except LdapErr (List Entry))
    (base field : String) (attrs : List String) (id : String) : Bool :=
  match oracle base (buildFilter field id) with
  | .error _ => false
  | .ok entries => (insertRows attrs entries).2.isNone

/-- A directory in which no identifier matches anything. -/
def oracleEmpty : String → String → Except LdapErr (List Entry) := fun _ _ => .ok []

/-- A directory on which every search raises. -/
def oracleFailAll : String → String → Except LdapErr (List Entry) := fun _ _ =>
  .error .searchError

/-- A directory on which the search for identifier `b` times out and every
other search returns no match. -/
def oracleFailB : String → String → Except LdapErr (List Entry) := fun _ filt =>
  if filt = "(uid=b)" then .error .timeout else .ok []

/-- The entry of the end-to-end scenario of spec §8: it carries `cn` and
`mail` but no `uid` attribute. -/
def entryJdoe : Entry := [("cn", "John Doe"), ("mail", "jdoe@example.com")]

/-- A directory returning `entryJdoe` for every search. -/
def oracleJdoe : String → String → Except LdapErr (List Entry) := fun _ _ =>
  .ok [entryJdoe]

/-- An entry carrying `uid` and `cn` but no `mail` attribute. -/
def entryNoMail : Entry := [("uid", "jdoe"), ("cn", "John Doe")]

/-- A directory returning `entryNoMail` for every search. -/
def oracleNoMail : String → String → Except LdapErr (List Entry) := fun _ _ =>
  .ok [entryNoMail]

/-- Two entries matched by identifier `b`, both carrying `uid` and `cn`. -/
def entriesB : List Entry := [[("uid", "b"), ("cn", "B1")], [("uid", "b"), ("cn", "B2")]]

/-- A directory on which `b` matches `entriesB` and nothing else matches. -/
def oracleTwo : String → String → Except LdapErr (List Entry) := fun _ filt =>
  if filt = "(uid=b)" then .ok entriesB else .ok []

theorem validate_some_inv (field base attrsIn : String) (p : SearchParams)
    (h : validate_search_parameters field base attrsIn = some p) :
    p = ⟨field, base, effectiveAttributes field attrsIn⟩ := by
  unfold validate_search_parameters at h
  split at h
  · exact absurd h (by simp)
  · split at h
    · exact absurd h (by simp)
    · split at h
      · exact absurd h (by simp)
      · exact (Option.some_inj.mp h).symm

theorem searchLoop_err_none (oracle : String → String → Except LdapErr (List Entry))
    (base field : String) (attrs : List String) (ids : List String) :
    (searchLoop oracle base field attrs ids).err = none →
      (searchLoop oracle base field attrs ids).filters = ids.map (buildFilter field) ∧
      (searchLoop oracle base field attrs ids).rows
        = (ids.map (rowsOfSearch oracle base field attrs)).flatten := by
  induction ids with
  | nil => intro _; simp [searchLoop]
  | cons id rest ih =>
    intro h
    cases hor : oracle base (buildFilter field id) with
    | error e =>
      simp only [searchLoop, hor] at h
      exact Option.noConfusion h
    | ok entries =>
      cases hins : (insertRows attrs entries).2 with
      | some e =>
        simp only [searchLoop, hor, hins] at h
        exact Option.noConfusion h
      | none =>
        simp only [searchLoop, hor, hins] at h ⊢
        obtain ⟨h1, h2⟩ := ih h
        simp [h1, h2, rowsOfSearch, hor]

/-- Claim C1 (code bug): the filter is built by raw string interpolation,
with no escaping whatsoever: `buildFilter "uid" "jdoe"` is `"(uid=jdoe)"`
as the claim says, but a value containing `)` is interpolated verbatim —
the reserved `)` survives unescaped and no escape character is introduced,
so the submitted filter is not syntactically valid per the protocol's
filter grammar. -/
theorem buildFilter_does_not_escape :
    buildFilter "uid" "jdoe" = "(uid=jdoe)" ∧
    buildFilter "uid" "jd)oe" = "(uid=jd)oe)" ∧
    '\\' ∉ (buildFilter "uid" "jd)oe").data := by
  refine ⟨rfl, rfl, ?_⟩
  decide

/-- Claim C2 (counterexample): identifiers `a`, `b`, `c`, where the search
for `b` times out.  The exception propagates out of the loop: `c` is never
searched (only two filters are submitted), the error dialog is shown and
`conn.unbind()` is never called — the batch is aborted, contradicting the
claim that every subsequent identifier is still searched. -/
theorem search_error_aborts_batch_example :
    (perform_ldap_search "uid" "dc=example,dc=com" "cn" (.ok ()) oracleFailB
        "a\nb\nc" [] false).filters = ["(uid=a)", "(uid=b)"] ∧
    (perform_ldap_search "uid" "dc=example,dc=com" "cn" (.ok ()) oracleFailB
        "a\nb\nc" [] false).errorDialog = true ∧
    (perform_ldap_search "uid" "dc=example,dc=com" "cn" (.ok ()) oracleFailB
        "a\nb\nc" [] false).unbinds = 0 := by
  decide

/-- Claim C2 (amended): a raising search failure on one identifier aborts
the batch: the loop runs inside a single `try`, so after any prefix of
identifiers whose searches complete, the first identifier whose search
raises is the last one searched — it contributes zero rows and no later
identifier is searched; the exception reaches the handler at line 217. -/
theorem search_error_aborts_batch (oracle : String → String → Except LdapErr (List Entry))
    (base field : String) (attrs : List String)
    (pre : List String) (id : String) (post : List String) (e : LdapErr)
    (hpre : ∀ i ∈ pre, searchOk oracle base field attrs i = true)
    (herr : oracle base (buildFilter field id) = .error e) :
    (searchLoop oracle base field attrs (pre ++ id :: post)).filters
        = pre.map (buildFilter field) ++ [buildFilter field id] ∧
    (searchLoop oracle base field attrs (pre ++ id :: post)).err = some e := by
  induction pre with
  | nil =>
    rw [List.nil_append, List.map_nil, List.nil_append]
    rw [searchLoop, herr]
    exact ⟨rfl, rfl⟩
  | cons a t ih =>
    have ha : searchOk oracle base field attrs a = true :=
      hpre a (List.mem_cons_self a t)
    have iht := ih (fun i hi => hpre i (List.mem_cons_of_mem a hi))
    unfold searchOk at ha
    cases hor : oracle base (buildFilter field a) with
    | error e' => rw [hor] at ha; simp at ha
    | ok entries =>
      rw [hor] at ha
      simp only [Option.isNone_iff_eq_none] at ha
      simp only [List.cons_append, searchLoop, hor, ha, List.map_cons, List.append_eq]
      exact ⟨by rw [iht.1], iht.2⟩

/-- Claim C2 (witness): with the `oracleFailB` directory, identifier `a`
succeeds, `b` raises a timeout, and `c` is never searched. -/
theorem search_error_aborts_batch_witness :
    (searchLoop oracleFailB "dc=example,dc=com" "uid" ["uid", "cn"]
        (["a"] ++ "b" :: ["c"])).filters
      = ["a"].map (buildFilter "uid") ++ [buildFilter "uid" "b"] ∧
    (searchLoop oracleFailB "dc=example,dc=com" "uid" ["uid", "cn"]
        (["a"] ++ "b" :: ["c"])).err = some .timeout :=
  search_error_aborts_batch oracleFailB "dc=example,dc=com" "uid" ["uid", "cn"]
    ["a"] "b" ["c"] .timeout (by decide) rfl

/-- Claim C3 (counterexample): the claim's own scenario — field `uid`,
identifier `jdoe`, one matched entry `{cn: "John Doe", mail:
"jdoe@example.com"}`.  The code builds every cell from the entry itself
(`str(result[attr])`, line 213) and never copies the identifier into the
row: projecting `uid` on an entry without a `uid` attribute raises, the
run aborts, and the claimed data row `"jdoe;John Doe;jdoe@example.com"`
never appears — the results box holds only the header. -/
theorem identifier_not_copied_to_row_example :
    projectEntry ["uid", "cn", "mail"] entryJdoe = .error (.keyError "uid") ∧
    (perform_ldap_search "uid" "dc=example,dc=com" "cn,mail" (.ok ()) oracleJdoe
        "jdoe" [] false).textbox = ["uid;cn;mail"] ∧
    (perform_ldap_search "uid" "dc=example,dc=com" "cn,mail" (.ok ()) oracleJdoe
        "jdoe" [] false).errorDialog = true := by
  decide

/-- Claim C3 (amended): the first cell of a data row is the entry's own
stringified value of the search-field attribute, not the identifier that
was searched for; an entry lacking that attribute raises instead of
yielding a row. -/
theorem row_first_cell_is_entry_attribute (field : String) (attrs : List String)
    (e : Entry) (v : String) (vs : List String)
    (hv : getAttr e field = some v)
    (hrest : projectEntry attrs e = .ok vs) :
    projectEntry (field :: attrs) e = .ok (v :: vs) := by
  simp [projectEntry, hv, hrest]

/-- Claim C3 (witness): an entry whose `uid` attribute value `JDOE`
differs from the identifier `jdoe` that found it — the row starts with
the entry's own value `JDOE`. -/
theorem row_first_cell_is_entry_attribute_witness :
    projectEntry ["uid", "cn"] [("uid", "JDOE"), ("cn", "X")] = .ok ["JDOE", "X"] ∧
    "JDOE" ≠ "jdoe" :=
  ⟨row_first_cell_is_entry_attribute "uid" ["cn"] [("uid", "JDOE"), ("cn", "X")]
      "JDOE" ["X"] (by decide) (by decide), by decide⟩

/-- Claim C4 (counterexample): a run whose connection binds (`opens = 1`)
and whose single search raises: `conn.unbind()` (line 215) sits inside
the `try` after the loop, so it is never reached — the session is opened
but never closed, contradicting close-exactly-once on every error
path. -/
theorem unbind_skipped_on_error_example :
    (perform_ldap_search "uid" "dc=example,dc=com" "cn" (.ok ()) oracleFailAll
        "a" [] false).opens = 1 ∧
    (perform_ldap_search "uid" "dc=example,dc=com" "cn" (.ok ()) oracleFailAll
        "a" [] false).unbinds = 0 := by
  decide

/-- Claim C4 (amended): `conn.unbind()` is called exactly once when
validation passes, the connection binds, and the identifier loop raises
no exception; it is called zero times in every other case — in
particular on every error path after the session is opened. -/
theorem unbind_count_characterization (field base attrsIn : String)
    (connect : Except LdapErr Unit)
    (oracle : String → String → Except LdapErr (List Entry))
    (text : String) (prev : List String) (pe : Bool) :
    (perform_ldap_search field base attrsIn connect oracle text prev pe).unbinds
      = match validate_search_parameters field base attrsIn with
        | none => 0
        | some p =>
          match connect with
          | .error _ => 0
          | .ok _ =>
            match (searchLoop oracle p.base p.field p.attributes
                (identifierLines text)).err with
            | some _ => 0
            | none => 1 := by
  cases hv : validate_search_parameters field base attrsIn with
  | none => simp [perform_ldap_search, hv]
  | some p =>
    cases connect with
    | error e => simp [perform_ldap_search, hv]
    | ok u =>
      cases u
      cases herr : (searchLoop oracle p.base p.field p.attributes
          (identifierLines text)).err with
      | none => simp [perform_ldap_search, hv, herr]
      | some e => simp [perform_ldap_search, hv, herr]

/-- Claim C5 (counterexample): input text `"a\n \n b"`.  Only the whole
text is stripped; the interior whitespace-only line produces the search
`(uid= )` and the identifier ` b` is searched untrimmed as `(uid= b)` —
blank lines are not skipped and per-identifier whitespace is
significant. -/
theorem blank_lines_not_skipped_example :
    (perform_ldap_search "uid" "dc=example,dc=com" "cn" (.ok ()) oracleEmpty
        "a\n \n b" [] false).filters = ["(uid=a)", "(uid= )", "(uid= b)"] := by
  decide

/-- Claim C5 (amended): the engine strips only the whole input text and
then submits exactly one search per resulting line, in order, with the
raw (untrimmed) line interpolated as the filter value — interior blank
and whitespace-only lines included — provided no search raises. -/
theorem one_search_per_raw_line (field base attrsIn : String)
    (oracle : String → String → Except LdapErr (List Entry))
    (text : String) (prev : List String) (pe : Bool) (p : SearchParams)
    (hv : validate_search_parameters field base attrsIn = some p)
    (hok : (searchLoop oracle p.base p.field p.attributes
        (identifierLines text)).err = none) :
    (perform_ldap_search field base attrsIn (.ok ()) oracle text prev pe).filters
      = (pySplitlines (pyStrip text)).map (buildFilter field) := by
  have hp := validate_some_inv field base attrsIn p hv
  have hfld : p.field = field := by rw [hp]
  have h := searchLoop_err_none oracle p.base p.field p.attributes
    (identifierLines text) hok
  simp only [identifierLines] at hok h
  simp only [perform_ldap_search, hv, identifierLines, hok, h.1]
  rw [hfld]

/-- Claim C5 (witness): the amended statement at the concrete input
`"a\n \n b"` with an empty directory. -/
theorem one_search_per_raw_line_witness :
    (perform_ldap_search "uid" "dc=example,dc=com" "cn" (.ok ()) oracleEmpty
        "a\n \n b" [] false).filters
      = (pySplitlines (pyStrip "a\n \n b")).map (buildFilter "uid") :=
  one_search_per_raw_line "uid" "dc=example,dc=com" "cn" oracleEmpty "a\n \n b"
    [] false ⟨"uid", "dc=example,dc=com", ["uid", "cn"]⟩ (by decide) (by decide)

/-- Claim C6 (counterexample): the entry `{uid: "jdoe", cn: "John Doe"}`
with effective attributes `uid, cn, mail`.  Projecting the absent `mail`
attribute raises (`LDAPKeyError`) instead of yielding an empty cell: the
entry contributes no row, the run aborts with the error dialog, and the
results box holds only the header. -/
theorem missing_attribute_not_empty_string_example :
    projectEntry ["uid", "cn", "mail"] entryNoMail = .error (.keyError "mail") ∧
    (perform_ldap_search "uid" "dc=example,dc=com" "cn,mail" (.ok ()) oracleNoMail
        "jdoe" [] false).textbox = ["uid;cn;mail"] ∧
    (perform_ldap_search "uid" "dc=example,dc=com" "cn,mail" (.ok ()) oracleNoMail
        "jdoe" [] false).errorDialog = true := by
  decide

/-- Claim C6 (amended): projecting an entry that lacks some requested
attribute always raises a key error (for some absent attribute of the
list) — it never yields a row with an empty cell. -/
theorem missing_attribute_raises (attrs : List String) (e : Entry) (a : String)
    (ha : a ∈ attrs) (hm : getAttr e a = none) :
    ∃ b, getAttr e b = none ∧ projectEntry attrs e = .error (.keyError b) := by
  induction attrs with
  | nil => cases ha
  | cons a' t ih =>
    cases hga : getAttr e a' with
    | none => exact ⟨a', hga, by simp [projectEntry, hga]⟩
    | some v =>
      have hat : a ∈ t := by
        rcases List.mem_cons.mp ha with h | h
        · rw [h, hga] at hm; cases hm
        · exact h
      obtain ⟨b, hb1, hb2⟩ := ih hat
      exact ⟨b, hb1, by simp [projectEntry, hga, hb2]⟩

/-- Claim C6 (witness): the amended statement for `entryNoMail` and the
attribute list `uid, cn, mail`. -/
theorem missing_attribute_raises_witness :
    ∃ b, getAttr entryNoMail b = none ∧
      projectEntry ["uid", "cn", "mail"] entryNoMail = .error (.keyError b) :=
  missing_attribute_raises ["uid", "cn", "mail"] entryNoMail "mail"
    (by decide) (by decide)

theorem string_data_append (a b : String) : (a ++ b).data = a.data ++ b.data := rfl

theorem comma_data : ("," : String).data = [','] := rfl

theorem string_mk_data (s : String) : String.mk s.data = s := rfl

theorem pySplitChars_append (sep : Char) (xs ys : List Char) (h : sep ∉ xs) :
    pySplitChars sep (xs ++ sep :: ys) = xs :: pySplitChars sep ys := by
  induction xs with
  | nil => simp [pySplitChars]
  | cons c cs ih =>
    have hc : ¬ c = sep := fun he => h (he ▸ List.mem_cons_self c cs)
    have hcs : sep ∉ cs := fun hm => h (List.mem_cons_of_mem c hm)
    simp [pySplitChars, hc, ih hcs]

/-- Claim C7: the effective attribute list (header and column order) is
the search field followed by the caller's attribute list, with no
deduplication.  The field is assumed comma-free and strip-invariant so
that it survives the comma-join at line 242 and the per-piece `strip()`
at line 243 unchanged; `S.attributes` is the code's own parse of the
attributes input, `split(",")` with each piece stripped. -/
theorem effective_attributes_field_prefixed (field attrsIn : String)
    (hf : pyStrip field = field) (hc : ',' ∉ field.data) :
    effectiveAttributes field attrsIn = field :: (pySplit ',' attrsIn).map pyStrip := by
  unfold effectiveAttributes pySplit
  have hdata : (field ++ "," ++ attrsIn).data = field.data ++ ',' :: attrsIn.data := by
    simp [string_data_append, comma_data]
  rw [hdata, pySplitChars_append ',' field.data attrsIn.data hc]
  simp [string_mk_data, hf]

/-- Claim C7 (witness): field `uid` with attribute input `uid,cn` — the
duplicate is preserved: the effective list is `uid, uid, cn`. -/
theorem effective_attributes_field_prefixed_witness :
    effectiveAttributes "uid" "uid,cn" = "uid" :: (pySplit ',' "uid,cn").map pyStrip ∧
    effectiveAttributes "uid" "uid,cn" = ["uid", "uid", "cn"] :=
  ⟨effective_attributes_field_prefixed "uid" "uid,cn" (by decide) (by decide),
   by decide⟩

/-- Claim C8 (counterexample): input `"a\nb"` with an interior blank line
written as `"a\n\nb"`.  Three searches are issued — one of them
`(uid=)` for the blank line — although there are only two non-blank
identifiers, contradicting "exactly one search per non-blank input
identifier". -/
theorem searches_exceed_nonblank_identifiers_example :
    (perform_ldap_search "uid" "dc=example,dc=com" "cn" (.ok ()) oracleEmpty
        "a\n\nb" [] false).filters = ["(uid=a)", "(uid=)", "(uid=b)"] ∧
    (identifierLines "a\n\nb").filter (fun l => !(pyStrip l == "")) = ["a", "b"] := by
  decide

/-- Claim C8 (amended): on a run in which no search raises, the engine
issues exactly one search per line of the stripped input text (interior
blank lines included), in input order, and the results box is the header
row followed by one row per matched entry, grouped in line-submission
order and in within-identifier service order, with no reordering,
deduplication, or merging. -/
theorem table_order_and_per_line_search (field base attrsIn : String)
    (oracle : String → String → Except LdapErr (List Entry))
    (text : String) (prev : List String) (pe : Bool) (p : SearchParams)
    (hv : validate_search_parameters field base attrsIn = some p)
    (hok : (searchLoop oracle p.base p.field p.attributes
        (identifierLines text)).err = none) :
    (perform_ldap_search field base attrsIn (.ok ()) oracle text prev pe).filters
        = (identifierLines text).map (buildFilter p.field) ∧
    (perform_ldap_search field base attrsIn (.ok ()) oracle text prev pe).textbox
        = joinSemicolon p.attributes ::
          ((identifierLines text).map
            (rowsOfSearch oracle p.base p.field p.attributes)).flatten.map joinSemicolon := by
  have h := searchLoop_err_none oracle p.base p.field p.attributes
    (identifierLines text) hok
  constructor
  · simp only [perform_ldap_search, hv, hok, h.1]
  · simp only [perform_ldap_search, hv, hok, h.2]

/-- Claim C8 (witness): identifiers `a` (no match) and `b` (two matched
entries): the searches are `(uid=a)`, `(uid=b)` in order and the table is
the header followed by the two rows for `b` in service order. -/
theorem table_order_and_per_line_search_witness :
    (perform_ldap_search "uid" "dc=example,dc=com" "cn" (.ok ()) oracleTwo
        "a\nb" [] false).filters
      = (identifierLines "a\nb").map (buildFilter "uid") ∧
    (perform_ldap_search "uid" "dc=example,dc=com" "cn" (.ok ()) oracleTwo
        "a\nb" [] false).textbox
      = joinSemicolon ["uid", "cn"] ::
        ((identifierLines "a\nb").map
          (rowsOfSearch oracleTwo "dc=example,dc=com" "uid" ["uid", "cn"])).flatten.map
            joinSemicolon :=
  table_order_and_per_line_search "uid" "dc=example,dc=com" "cn" oracleTwo "a\nb"
    [] false ⟨"uid", "dc=example,dc=com", ["uid", "cn"]⟩ (by decide) (by decide)

/-- Claim C9 (counterexample): the results box (line 195) is cleared only
after parameter validation succeeds; an invocation with an empty search
field returns at line 192 and leaves the previous run's rows in place. -/
theorem stale_results_kept_on_invalid_params :
    (perform_ldap_search "" "dc=example,dc=com" "cn" (.ok ()) oracleEmpty "a"
        ["old;row"] true).textbox = ["old;row"] ∧
    (perform_ldap_search "" "dc=example,dc=com" "cn" (.ok ()) oracleEmpty "a"
        ["old;row"] true).opens = 0 := by
  decide

/-- Claim C9 (amended): once parameter validation succeeds the results box
is cleared before the connection is opened, so the output of such a run is
independent of whatever the box held before — no row of an earlier run
survives; only a run aborted by validation leaves the box untouched. -/
theorem textbox_independent_of_previous (field base attrsIn : String)
    (connect : Except LdapErr Unit)
    (oracle : String → String → Except LdapErr (List Entry))
    (text : String) (prev prev2 : List String) (pe pe2 : Bool) (p : SearchParams)
    (hv : validate_search_parameters field base attrsIn = some p) :
    (perform_ldap_search field base attrsIn connect oracle text prev pe).textbox
      = (perform_ldap_search field base attrsIn connect oracle text prev2 pe2).textbox := by
  cases connect with
  | error e => simp [perform_ldap_search, hv]
  | ok u =>
    cases u
    cases herr : (searchLoop oracle p.base p.field p.attributes
        (identifierLines text)).err with
    | none => simp [perform_ldap_search, hv, herr]
    | some e => simp [perform_ldap_search, hv, herr]

/-- Claim C9 (witness): the amended statement at a concrete input with two
different previous results-box contents. -/
theorem textbox_independent_of_previous_witness :
    (perform_ldap_search "uid" "dc=example,dc=com" "cn" (.ok ()) oracleEmpty "a"
        ["old;row"] true).textbox
      = (perform_ldap_search "uid" "dc=example,dc=com" "cn" (.ok ()) oracleEmpty "a"
        [] false).textbox :=
  textbox_independent_of_previous "uid" "dc=example,dc=com" "cn" (.ok ())
    oracleEmpty "a" ["old;row"] [] true false
    ⟨"uid", "dc=example,dc=com", ["uid", "cn"]⟩ (by decide)

/-- Claim C10: `validate_search_parameters` returns `None` exactly when
the field, the base, or the attributes input is empty or equal to its
placeholder text; and when it returns `None`, `perform_ldap_search`
returns before the `try` block — no connection is attempted and no search
is issued. -/
theorem validation_rejects_blank_or_placeholder (field base attrsIn : String)
    (connect : Except LdapErr Unit)
    (oracle : String → String → Except LdapErr (List Entry))
    (text : String) (prev : List String) (pe : Bool) :
    ((validate_search_parameters field base attrsIn).isNone
        = (field == "" || field == placeholderField || base == ""
            || base == placeholderBase || attrsIn == ""
            || attrsIn == placeholderAttrs)) ∧
    ((perform_ldap_search field base attrsIn connect oracle text prev pe).opens
        = if (validate_search_parameters field base attrsIn).isNone then 0 else 1) ∧
    ((perform_ldap_search field base attrsIn connect oracle text prev pe).filters = []
        ∨ (validate_search_parameters field base attrsIn).isNone = false) := by
  refine ⟨?_, ?_, ?_⟩
  · rw [Bool.eq_iff_iff]
    simp only [Option.isNone_iff_eq_none, Bool.or_eq_true, beq_iff_eq]
    unfold validate_search_parameters
    split_ifs with h1 h2 h3 <;> simp <;> tauto
  · cases hv : validate_search_parameters field base attrsIn with
    | none => simp [perform_ldap_search, hv]
    | some p =>
      cases connect with
      | error e => simp [perform_ldap_search, hv]
      | ok u =>
        cases u
        cases herr : (searchLoop oracle p.base p.field p.attributes
            (identifierLines text)).err with
        | none => simp [perform_ldap_search, hv, herr]
        | some e => simp [perform_ldap_search, hv, herr]
  · cases hv : validate_search_parameters field base attrsIn with
    | none =>
      left
      simp [perform_ldap_search, hv]
    | some p =>
      right
      simp [hv]

end LdapSearcher
